import Mathlib

/-!
Verification development for the cohesv-ai-voice-tool repository.

This file gives a shallow embedding, in Lean 4, of the parts of the code that
the verified properties talk about:

* `voice-parser/voice_parser/services/llm/models.py` — the `MessageIntent`
  enum, the `tag` sanitizing validator of `MessageMetadata`, the structured
  document models (`JobsToBeDoneDocumentModel`, `KnowledgeDocumentModel`)
  with their `format`, `format_truncated` and `format_for_whatsapp` methods;
* `shared-lib/src/ai_voice_shared/models.py` — `TwilioWebhookPayload` and its
  accessors `get_message_type`, `get_media_url`, `get_phone_number`;
* `shared-lib/src/ai_voice_shared/services/s3_service.py` — `S3Service.upload`
  (with its overwrite guard), `list_objects` and `list_objects_ids_only`;
* `shared-lib/src/ai_voice_shared/services/customer_lookup_client.py` —
  `CustomerLookupClient.fetch_customer_metadata`;
* `voice-parser/voice_parser/core/processor.py` — `process_message`, the
  orchestrating pipeline, modelled as a pure function over an oracle
  environment (HTTP calls, LLM calls) that threads an explicit S3 store and
  records an effect trace (messages sent, objects uploaded, LLM calls made).

Strings are modelled by Lean `String` (Python `len` on `str` counts code
points, as does `String.length`).  Python character-level operations
(`str.lower`, `str.strip`, `int(...)`) are modelled on `Char` lists; the
model is exact on the ASCII inputs these code paths handle.
-/

/-! ## Python-style primitive helpers -/

/-- Python `int(s)` digit-run parser after the optional sign: digits with
single underscores allowed strictly between digits (`int("1_0") = 10`,
`int("1__0")`, `int("_1")`, `int("1_")` all raise).  `none` models the
raised `ValueError`. -/
def parseDigitsAux : Nat → List Char → Option Nat
  | acc, [] => some acc
  | acc, c :: cs =>
    if c.isDigit then parseDigitsAux (10 * acc + (c.toNat - 48)) cs
    else if c = '_' then
      match cs with
      | [] => none
      | c2 :: cs2 => if c2.isDigit then parseDigitsAux acc (c2 :: cs2) else none
    else none

/-- Digit run must be nonempty and must not start with an underscore. -/
def parseDigits (l : List Char) : Option Nat :=
  match l with
  | [] => none
  | c :: _ => if c.isDigit then parseDigitsAux 0 l else none

/-- Remove trailing characters satisfying `q` (the right half of Python
`str.strip`), written structurally so that head/last lemmas are easy. -/
def dropTrailing (q : Char → Bool) : List Char → List Char
  | [] => []
  | c :: cs =>
    match dropTrailing q cs with
    | [] => if q c then [] else [c]
    | d :: ds => c :: d :: ds

/-- Python `str.strip(chars)`: drop characters satisfying `q` from both
ends. -/
def stripEdges (q : Char → Bool) (l : List Char) : List Char :=
  dropTrailing q (l.dropWhile q)

/-- Python `int(s)` on a string: surrounding whitespace stripped, optional
sign, then a digit run.  `none` models a raised `ValueError`. -/
def pythonInt (s : String) : Option Int :=
  match stripEdges Char.isWhitespace s.data with
  | '+' :: rest => (parseDigits rest).map Int.ofNat
  | '-' :: rest => (parseDigits rest).map (fun n => -(Int.ofNat n))
  | cs => (parseDigits cs).map Int.ofNat

/-- Python `s.split(sep)` for a one-character separator, accumulator form. -/
def splitOnCharAux (sep : Char) : List Char → List Char → List (List Char)
  | cur, [] => [cur.reverse]
  | cur, c :: cs =>
    if c = sep then cur.reverse :: splitOnCharAux sep [] cs
    else splitOnCharAux sep (c :: cur) cs

/-- Python `s.split(sep)` for a one-character separator. -/
def splitOnChar (sep : Char) (l : List Char) : List (List Char) :=
  splitOnCharAux sep [] l

/-- Python `s.startswith(pat)` on character lists. -/
def startsWithChars : List Char → List Char → Bool
  | [], _ => true
  | _ :: _, [] => false
  | p :: ps, c :: cs => p = c && startsWithChars ps cs

/-- Python `s.startswith(pat)` on strings. -/
def strStarts (pat s : String) : Bool :=
  startsWithChars pat.data s.data

/-- Python `sep.join(xs)`. -/
def joinWith (sep : String) : List String → String
  | [] => ""
  | [x] => x
  | x :: y :: rest => x ++ sep ++ joinWith sep (y :: rest)

/-- Python `s.lower()` (ASCII model). -/
def lowerStr (s : String) : String :=
  String.mk (s.data.map Char.toLower)

/-! ## LLM models (`voice_parser/services/llm/models.py`) -/

/-- `MessageIntent` enum. -/
inductive MessageIntent where
  | jobToBeDone
  | knowledgeDocument
  | other
deriving DecidableEq, Repr

/-- The `.value` of each enum member. -/
def MessageIntent.value : MessageIntent → String
  | .jobToBeDone => "job-to-be-done"
  | .knowledgeDocument => "knowledge-document"
  | .other => "other"

/-- Character class kept by the validator's second regex:
`[^a-z0-9\-.]` is removed, i.e. `a-z`, `0-9`, `-` and `.` are kept. -/
def allowedTagChar (c : Char) : Bool :=
  ('a' ≤ c && c ≤ 'z') || ('0' ≤ c && c ≤ '9') || c = '-' || c = '.'

/-- A whitespace-or-underscore character, the class `[\s_]` collapsed by the
validator. -/
def isWsU (c : Char) : Bool := c.isWhitespace || c = '_'

/-- `re.sub(r'[\s_]+', '-', s)`: each maximal run of whitespace/underscore
characters becomes one hyphen. -/
def collapseRuns : List Char → List Char
  | [] => []
  | [c] => if isWsU c then ['-'] else [c]
  | c :: d :: rest =>
    if isWsU c then
      if isWsU d then collapseRuns (d :: rest)
      else '-' :: collapseRuns (d :: rest)
    else c :: collapseRuns (d :: rest)

/-- The sanitizing pipeline of `MessageMetadata.validate_s3_key` before the
emptiness check: `v.lower().strip()`, collapse `[\s_]+` to `-`, remove
`[^a-z0-9\-.]`, then `strip('-')`. -/
def sanitizedCore (v : String) : List Char :=
  stripEdges (fun c => c = '-')
    ((collapseRuns (stripEdges Char.isWhitespace (v.data.map Char.toLower))).filter
      allowedTagChar)

/-- `MessageMetadata.validate_s3_key`: returns the sanitized tag, or `none`
for the raised `ValueError` when the sanitized result is empty. -/
def validateS3Key (v : String) : Option String :=
  if (sanitizedCore v).isEmpty then none else some (String.mk (sanitizedCore v))

/-- `MessageMetadata`: classification output after tag validation. -/
structure MessageMetadata where
  intent : MessageIntent
  tag : String
deriving DecidableEq, Repr

/-- The pattern `^[a-z0-9]([a-z0-9.-]*[a-z0-9])?$` named by the spec's tag
sanitization property (spec-side definition, used to compare the code's
behaviour against the spec's words). -/
def lowerAlnum (c : Char) : Bool :=
  ('a' ≤ c && c ≤ 'z') || ('0' ≤ c && c ≤ '9')

/-- Decidable matcher for `^[a-z0-9]([a-z0-9.-]*[a-z0-9])?$`. -/
def specTagPattern (s : String) : Bool :=
  match s.data with
  | [] => false
  | c :: rest =>
    lowerAlnum c &&
      (match rest.getLast? with
       | none => true
       | some d => lowerAlnum d && rest.dropLast.all allowedTagChar)

/-- Structured documents: the two concrete subclasses of
`StructuredDocumentModel`. -/
inductive StructuredDoc where
  | jobsToBeDone (summary job context : String) (actionItems : List String)
  | knowledge (title summary context : String)
deriving DecidableEq, Repr

/-- `chr(10).join(f'• X' for ...)` bullet list used by
`JobsToBeDoneDocumentModel`. -/
def bulletList (items : List String) : String :=
  joinWith "\n" (items.map (fun i => "• " ++ i))

/-- `format()` of each document model (the f-string templates of
`models.py`). -/
def StructuredDoc.format : StructuredDoc → String
  | .jobsToBeDone summary job context actionItems =>
      "*Summary:*\n" ++ summary ++ "\n\n*Job:*\n" ++ job ++ "\n\n*Context:*\n"
        ++ context ++ "\n\n*Action Items:*\n" ++ bulletList actionItems ++ "\n"
  | .knowledge title summary context =>
      "*Title:*\n" ++ title ++ "\n\n*Summary:*\n" ++ summary ++ "\n\n*Context:*\n"
        ++ context ++ "\n"

/-- `format_truncated()` of each document model. -/
def StructuredDoc.formatTruncated : StructuredDoc → String
  | .jobsToBeDone summary _ _ actionItems =>
      "*Summary:*\n" ++ summary ++ "\n\n*Action Items:*\n" ++ bulletList actionItems
        ++ "\n\n---\nRest of job information truncated.\n"
  | .knowledge title summary _ =>
      "*Title:*\n" ++ title ++ "\n\n*Summary:*\n" ++ summary
        ++ "\n\n---\nRest of knowledge document truncated.\n"

/-- `StructuredDocumentModel.WHATSAPP_CHAR_LIMIT`. -/
def whatsappCharLimit : Nat := 1600

/-- `StructuredDocumentModel.format_for_whatsapp(tag, prefix, suffix)`:
three-tier fallback (full, truncated, minimal). -/
def formatForWhatsapp (d : StructuredDoc) (tag pre suf : String) : String :=
  let fullMessage := pre ++ d.format ++ suf
  if fullMessage.length ≤ whatsappCharLimit then fullMessage
  else
    let truncatedMessage := pre ++ d.formatTruncated ++ suf
    if truncatedMessage.length ≤ whatsappCharLimit then truncatedMessage
    else
      let minimal := "Successfully uploaded: " ++ tag
      if (pre ++ minimal ++ suf).length ≤ whatsappCharLimit then pre ++ minimal ++ suf
      else minimal

/-! ## Shared models (`ai_voice_shared/models.py`) -/

/-- `CustomerMetadata` returned by the customer lookup service. -/
structure CustomerMetadata where
  customer_id : String
  company_id : String
  company_name : String
deriving DecidableEq, Repr

/-- `TwilioWebhookPayload`: every declared field, with the declared defaults.
`NumMedia` is typed as an arbitrary string with default `"0"`; optional
fields are `Option String` with default `None`.  (The pydantic model also
accepts extra fields, which no accessor reads; they are not modelled.) -/
structure TwilioWebhookPayload where
  MessageSid : String
  SmsSid : Option String := none
  SmsMessageSid : Option String := none
  AccountSid : String
  From : String
  To : String
  ProfileName : Option String := none
  WaId : Option String := none
  Body : Option String := none
  MessageType : Option String := none
  NumMedia : String := "0"
  MediaContentType0 : Option String := none
  MediaUrl0 : Option String := none
  MediaContentType1 : Option String := none
  MediaUrl1 : Option String := none
  SmsStatus : Option String := none
  ApiVersion : Option String := none
  NumSegments : Option String := none
  ReferralNumMedia : Option String := none
  ChannelMetadata : Option String := none
deriving DecidableEq, Repr

/-- The early-return mapping of `get_message_type` driven by the declared
`MessageType` field (`if self.MessageType:` — the empty string is falsy). -/
def declaredMessageType (p : TwilioWebhookPayload) : Option String :=
  match p.MessageType with
  | none => none
  | some mt =>
    if mt = "" then none
    else
      let m := lowerStr mt
      if m = "text" || m = "audio" || m = "image" || m = "video" || m = "document"
      then some m
      else if m = "file" then some "document"
      else none

/-- `TwilioWebhookPayload.get_message_type`.  The `Except.error` case models
the `ValueError` raised by the unguarded `int(self.NumMedia)` when the
declared `MessageType` produced no early return. -/
def getMessageType (p : TwilioWebhookPayload) : Except String String :=
  match declaredMessageType p with
  | some t => .ok t
  | none =>
    match pythonInt p.NumMedia with
    | none =>
      .error ("ValueError: invalid literal for int() with base 10: '"
        ++ p.NumMedia ++ "'")
    | some n =>
      if n = 0 then .ok "text"
      else
        match p.MediaContentType0 with
        | some ct =>
          if ct = "" then .ok "unknown"
          else
            let c := lowerStr ct
            if strStarts "audio/" c then .ok "audio"
            else if strStarts "image/" c then .ok "image"
            else if strStarts "video/" c then .ok "video"
            else .ok "document"
        | none => .ok "unknown"

/-- `TwilioWebhookPayload.get_media_url`; same unguarded `int(self.NumMedia)`
conversion. -/
def getMediaUrl (p : TwilioWebhookPayload) : Except String (Option String) :=
  match pythonInt p.NumMedia with
  | none =>
    .error ("ValueError: invalid literal for int() with base 10: '"
      ++ p.NumMedia ++ "'")
  | some n => if 0 < n then .ok p.MediaUrl0 else .ok none

/-- Python `repr` of an optional string field inside `model_dump()` output. -/
def pyOptRepr : Option String → String
  | none => "None"
  | some s => "'" ++ s ++ "'"

/-- Python dict repr of `payload.model_dump()` as interpolated into the
unsupported-content reply f-string (declared fields, declaration order). -/
def payloadDump (p : TwilioWebhookPayload) : String :=
  "\x7b'MessageSid': '" ++ p.MessageSid
    ++ "', 'SmsSid': " ++ pyOptRepr p.SmsSid
    ++ ", 'SmsMessageSid': " ++ pyOptRepr p.SmsMessageSid
    ++ ", 'AccountSid': '" ++ p.AccountSid
    ++ "', 'From': '" ++ p.From
    ++ "', 'To': '" ++ p.To
    ++ "', 'ProfileName': " ++ pyOptRepr p.ProfileName
    ++ ", 'WaId': " ++ pyOptRepr p.WaId
    ++ ", 'Body': " ++ pyOptRepr p.Body
    ++ ", 'MessageType': " ++ pyOptRepr p.MessageType
    ++ ", 'NumMedia': '" ++ p.NumMedia
    ++ "', 'MediaContentType0': " ++ pyOptRepr p.MediaContentType0
    ++ ", 'MediaUrl0': " ++ pyOptRepr p.MediaUrl0
    ++ ", 'MediaContentType1': " ++ pyOptRepr p.MediaContentType1
    ++ ", 'MediaUrl1': " ++ pyOptRepr p.MediaUrl1
    ++ ", 'SmsStatus': " ++ pyOptRepr p.SmsStatus
    ++ ", 'ApiVersion': " ++ pyOptRepr p.ApiVersion
    ++ ", 'NumSegments': " ++ pyOptRepr p.NumSegments
    ++ ", 'ReferralNumMedia': " ++ pyOptRepr p.ReferralNumMedia
    ++ ", 'ChannelMetadata': " ++ pyOptRepr p.ChannelMetadata
    ++ "\x7d"

/-! ## S3 service (`ai_voice_shared/services/s3_service.py`) -/

/-- The S3 bucket contents: a list of `(key, data, contentType)` entries
(idealized `head_object`/`put_object` backend). -/
def Store : Type := List (String × String × String)

instance : DecidableEq Store := fun a b => List.hasDecEq a b

/-- `S3Service.exists`: `head_object` on the key. -/
def storeContains (store : Store) (key : String) : Bool :=
  store.any (fun e => e.1 = key)

/-- `put_object`: (over)writes the object at the key. -/
def storePut (store : Store) (key data contentType : String) : Store :=
  (key, data, contentType) :: store.filter (fun e => !(e.1 = key))

/-- `S3Service.upload(data, key, content_type, overwrite)`: existence check
first; with `overwrite=False` a pre-existing key raises `FileExistsError`
before any write; otherwise `put_object` runs and the key is returned. -/
def s3upload (store : Store) (data key contentType : String) (overwrite : Bool) :
    Except String String × Store :=
  if storeContains store key then
    if overwrite = false then
      (.error ("File already exists at " ++ key ++ ". Set overwrite=True to replace it."),
        store)
    else (.ok key, storePut store key data contentType)
  else (.ok key, storePut store key data contentType)

/-- `S3Service.list_objects(company_id, message_intent)`: keys under the
prefix `"{company_id}/{message_intent}/"` (metadata other than the key is
irrelevant to the grouping logic and omitted; pagination is modelled as a
single page). -/
def listObjects (store : Store) (companyId messageIntent : String) : List String :=
  (store.map (fun e => e.1)).filter
    (fun k => strStarts (companyId ++ "/" ++ messageIntent ++ "/") k)

/-- `MessageIdSummary` (shared models): one group of artifacts. -/
structure MessageIdSummary where
  message_id : String
  tag : String
  file_count : Nat
deriving DecidableEq, Repr

/-- The SID scan of `list_objects_ids_only`: first `_`-separated part that
starts with `SM` or `MM` and has length at least 10, together with the parts
before it. -/
def findSidAux : List String → List String → Option (String × List String)
  | _, [] => none
  | acc, part :: rest =>
    if (strStarts "SM" part || strStarts "MM" part) && 10 ≤ part.length
    then some (part, acc.reverse)
    else findSidAux (part :: acc) rest

/-- Insertion-ordered grouping dict update: first occurrence creates the
group (fixing its tag), later occurrences only bump `file_count`. -/
def bumpGroup (groups : List MessageIdSummary) (mid tag : String) :
    List MessageIdSummary :=
  match groups with
  | [] => [⟨mid, tag, 1⟩]
  | g :: gs =>
    if g.message_id = mid then ⟨g.message_id, g.tag, g.file_count + 1⟩ :: gs
    else g :: bumpGroup gs mid tag

/-- Processing of one listed key inside `list_objects_ids_only`'s loop. -/
def groupKey (groups : List MessageIdSummary) (key : String) :
    List MessageIdSummary :=
  let keyParts := (splitOnChar '/' key.data).map String.mk
  if keyParts.length < 3 then groups
  else
    let filename := (keyParts.getLastD "")
    let parts := (splitOnChar '_' filename.data).map String.mk
    if parts.length < 2 then groups
    else
      match findSidAux [] parts with
      | none => groups
      | some (mid, tagParts) =>
        let tag := if tagParts.isEmpty then "unknown" else joinWith "_" tagParts
        bumpGroup groups mid tag

/-- `S3Service.list_objects_ids_only(company_id, message_intent)`: group the
listed keys by recovered message id. -/
def listObjectsIdsOnly (store : Store) (companyId messageIntent : String) :
    List MessageIdSummary :=
  (listObjects store companyId messageIntent).foldl groupKey []

/-! ## Customer lookup (`ai_voice_shared/services/customer_lookup_client.py`) -/

/-- Outcome of the HTTP `GET /customer-lookup/customers/lookup` call:
either a response with a status code, an optional `error` field in the JSON
body, and (for 200) an optionally well-formed `CustomerMetadata` body, or a
transport-level `httpx.HTTPError`. -/
inductive LookupResponse where
  | http (status : Nat) (errorField : Option String) (parsed : Option CustomerMetadata)
  | transportError (msg : String)
deriving DecidableEq, Repr

/-- `CustomerLookupClient.fetch_customer_metadata`: every failure mode —
404/401/400, any other non-200 status, transport error, or a 200 body that
fails `CustomerMetadata` validation — is surfaced to the caller as a raised
condition (`.error`). -/
def fetchCustomerMetadata (resp : LookupResponse) (phoneNumber : String) :
    Except String CustomerMetadata :=
  let cleanPhone := (phoneNumber.replace "whatsapp:" "")
  match resp with
  | .transportError m => .error ("Customer lookup failed: " ++ m)
  | .http status errorField parsed =>
    if status = 404 then
      .error ((errorField).getD ("Customer not found for phone number: " ++ cleanPhone))
    else if status = 401 then .error "Customer lookup failed: Unauthorized"
    else if status = 400 then
      .error ("Customer lookup failed: " ++ (errorField).getD "Bad request")
    else if status ≠ 200 then
      .error ("Customer lookup failed: HTTP " ++ toString status)
    else
      match parsed with
      | some md => .ok md
      | none => .error "ValidationError: response body is not valid CustomerMetadata"

/-- A lookup outcome the HTTP layer reports as a failure (any non-200
status, malformed 200 body, or transport error). -/
def lookupFails (resp : LookupResponse) : Bool :=
  match resp with
  | .transportError _ => true
  | .http status _ parsed => !(status = 200) || parsed.isNone

/-! ## Processor (`voice_parser/core/processor.py`) -/

/-- Observable side effects of one `process_message` run, in order:
outbound WhatsApp API calls, S3 `put_object` writes, LLM classification
(`extract_message_metadata`) and extraction (`structure_full_text`) calls,
Twilio media downloads and transcription calls. -/
inductive Effect where
  | send (recipient body : String)
  | upload (key : String)
  | classify (text : String)
  | extract (text : String) (intent : MessageIntent)
  | download (url : String)
  | transcribe (filename : String)
deriving DecidableEq, Repr

/-- State threaded through a run: the S3 store and the effect trace. -/
structure PState where
  store : Store
  trace : List Effect
deriving DecidableEq

/-- Append an effect to the trace. -/
def addEffect (st : PState) (e : Effect) : PState :=
  { st with trace := st.trace ++ [e] }

/-- Oracles for the external services the processor calls: customer lookup,
Twilio send/download, Whisper transcription, and the two LLM calls (the LLM
classification oracle returns the raw `(intent, tag)` before the pydantic
tag validator runs). -/
structure Env where
  lookup : String → Except String CustomerMetadata
  sendMessageApi : String → String → Except String Unit
  downloadMediaApi : String → Except String String
  transcribeApi : String → String → Except String String
  extractMetadataApi : String → Except String (MessageIntent × String)
  structureTextApi : String → MessageIntent → Except String StructuredDoc

/-- The `whatsapp:` recipient prefixing of
`TwilioWhatsAppClient.send_message`. -/
def sentRecipient (recipientPhone : String) : String :=
  if strStarts "whatsapp:" recipientPhone then recipientPhone
  else "whatsapp:" ++ recipientPhone

/-- `TwilioWhatsAppClient.send_message`: ensure the `whatsapp:` recipient
prefixing, then POST (the API call attempt is recorded as a `send` effect;
a non-2xx response propagates as an error). -/
def sendMessage (env : Env) (recipientPhone body : String) (st : PState) :
    Except String Unit × PState :=
  let recipient := sentRecipient recipientPhone
  let st' := addEffect st (.send recipient body)
  match env.sendMessageApi recipient body with
  | .ok _ => (.ok (), st')
  | .error e => (.error e, st')

/-- `TwilioWhatsAppClient.download_media`. -/
def downloadMedia (env : Env) (url : String) (st : PState) :
    Except String String × PState :=
  let st' := addEffect st (.download url)
  match env.downloadMediaApi url with
  | .ok d => (.ok d, st')
  | .error e => (.error e, st')

/-- `TranscriptionClient.transcribe`. -/
def transcribeAudio (env : Env) (audio filename : String) (st : PState) :
    Except String String × PState :=
  let st' := addEffect st (.transcribe filename)
  match env.transcribeApi audio filename with
  | .ok t => (.ok t, st')
  | .error e => (.error e, st')

/-- `S3Service.upload` inside a run: the `upload` effect is recorded exactly
when `put_object` executes. -/
def s3UploadStep (data key contentType : String) (overwrite : Bool) (st : PState) :
    Except String String × PState :=
  match s3upload st.store data key contentType overwrite with
  | (.error e, store') => (.error e, { st with store := store' })
  | (.ok k, store') =>
    (.ok k, { store := store', trace := st.trace ++ [Effect.upload k] })

/-- `LLMClient.extract_message_metadata` followed by the pydantic
construction of `MessageMetadata`, whose `validate_s3_key` validator
sanitizes the tag and raises when the sanitized tag is empty. -/
def extractMessageMetadata (env : Env) (fullText : String) (st : PState) :
    Except String MessageMetadata × PState :=
  let st' := addEffect st (.classify fullText)
  match env.extractMetadataApi fullText with
  | .error e => (.error e, st')
  | .ok (rawIntent, rawTag) =>
    match validateS3Key rawTag with
    | none => (.error "ValueError: Tag must contain at least one alphanumeric character", st')
    | some tag => (.ok ⟨rawIntent, tag⟩, st')

/-- `LLMClient.structure_full_text`. -/
def structureFullText (env : Env) (fullText : String) (intent : MessageIntent)
    (st : PState) : Except String StructuredDoc × PState :=
  let st' := addEffect st (.extract fullText intent)
  match env.structureTextApi fullText intent with
  | .ok d => (.ok d, st')
  | .error e => (.error e, st')

/-- Line 109 of `processor.py`:
`key_prefix = f"{company_id}/{message_metadata.intent.value}/{message_metadata.tag}_{message_id}"`. -/
def artifactKeyStem (companyId intentValue tag messageId : String) : String :=
  companyId ++ "/" ++ intentValue ++ "/" ++ tag ++ "_" ++ messageId

/-- The dict returned by `process_message`. -/
inductive ProcOutcome where
  | ignored (reason : String)
  | success (messageId : String) (s3Keys : List (String × String))
      (transcriptionLength : Nat) (metadata : MessageMetadata)
      (analysis : Option StructuredDoc)
deriving DecidableEq, Repr

/-- Lines 98–176 of `processor.py`: the shared tail of `process_message`
after content acquisition (classification, optional extraction, artifact
uploads, final reply).  `audioData` is only read in the `message_type ==
"audio"` branch, where the caller passes the downloaded audio. -/
def finishProcessing (env : Env) (companyId phone messageId messageType fullText
    audioData : String) (st : PState) : Except String ProcOutcome × PState :=
  match extractMessageMetadata env fullText st with
  | (.error e, st1) => (.error e, st1)
  | (.ok metadata, st1) =>
    let structuredStep : Except String (Option StructuredDoc) × PState :=
      if metadata.intent = .jobToBeDone || metadata.intent = .knowledgeDocument then
        match structureFullText env fullText metadata.intent st1 with
        | (.error e, st2) => (.error e, st2)
        | (.ok d, st2) => (.ok (some d), st2)
      else (.ok none, st1)
    match structuredStep with
    | (.error e, st2) => (.error e, st2)
    | (.ok structuredAnalysis, st2) =>
      let keyStem := artifactKeyStem companyId metadata.intent.value
        metadata.tag messageId
      let audioStep : Except String (List (String × String)) × PState :=
        if messageType = "audio" then
          match s3UploadStep audioData (keyStem ++ "_audio.ogg") "audio/ogg" false st2 with
          | (.error e, st3) => (.error e, st3)
          | (.ok k, st3) => (.ok [("audio", k)], st3)
        else (.ok [], st2)
      match audioStep with
      | (.error e, st3) => (.error e, st3)
      | (.ok s3KeysAudio, st3) =>
        match s3UploadStep fullText (keyStem ++ "_full_text.txt") "text/plain" false st3 with
        | (.error e, st4) => (.error e, st4)
        | (.ok fullTextKey, st4) =>
          let s3Keys := s3KeysAudio ++ [("full_text", fullTextKey)]
          match structuredAnalysis with
          | some doc =>
            let formattedText := doc.format
            match s3UploadStep formattedText (keyStem ++ ".text_summary.txt")
                "text/plain" false st4 with
            | (.error e, st5) => (.error e, st5)
            | (.ok summaryKey, st5) =>
              let s3Keys' := s3Keys ++ [("text_summary", summaryKey)]
              let messageBody := "Successfully ingested the following items:\n\n"
                ++ formattedText
                ++ "\n\nNote: Replies to this message are treated as new requests.\n"
              match sendMessage env phone messageBody st5 with
              | (.error e, st6) => (.error e, st6)
              | (.ok _, st6) =>
                (.ok (.success messageId s3Keys' fullText.length metadata
                  (some doc)), st6)
          | none =>
            match sendMessage env phone
                "Message received and processed. Note: This message was classified as informational only."
                st4 with
            | (.error e, st5) => (.error e, st5)
            | (.ok _, st5) =>
              (.ok (.success messageId s3Keys fullText.length metadata none), st5)

/-- `process_message(payload)` over the oracle environment.  Mirrors
`processor.py`: phone extraction (empty `From` is falsy), customer lookup,
message-type dispatch (which can itself raise from `int(NumMedia)`),
confirmation send, content acquisition per branch (with the fixed
unsupported-content reply and `ignored` status for other kinds), then the
shared `finishProcessing` tail. -/
def processMessage (env : Env) (payload : TwilioWebhookPayload) (st : PState) :
    Except String ProcOutcome × PState :=
  let messagePhonenumber := payload.From
  if messagePhonenumber = "" then
    (.error "Could not extract sender phone number", st)
  else
    match env.lookup messagePhonenumber with
    | .error e => (.error e, st)
    | .ok customerMetadata =>
      match getMessageType payload with
      | .error e => (.error e, st)
      | .ok messageType =>
        let messageId := payload.MessageSid
        match sendMessage env messagePhonenumber "Message received, processing..." st with
        | (.error e, st1) => (.error e, st1)
        | (.ok _, st1) =>
          if messageType = "text" then
            match payload.Body with
            | some fullText =>
              finishProcessing env customerMetadata.company_id messagePhonenumber
                messageId messageType fullText "" st1
            | none => (.error "TypeError: message Body is None", st1)
          else if messageType = "audio" then
            match getMediaUrl payload with
            | .error e => (.error e, st1)
            | .ok none => (.error "Audio message missing media URL", st1)
            | .ok (some mediaUrl) =>
              if mediaUrl = "" then (.error "Audio message missing media URL", st1)
              else
                match downloadMedia env mediaUrl st1 with
                | (.error e, st2) => (.error e, st2)
                | (.ok audioData, st2) =>
                  match transcribeAudio env audioData (messageId ++ ".ogg") st2 with
                  | (.error e, st3) => (.error e, st3)
                  | (.ok fullText, st3) =>
                    finishProcessing env customerMetadata.company_id messagePhonenumber
                      messageId messageType fullText audioData st3
          else
            match sendMessage env messagePhonenumber
                ("Messages of type " ++ messageType
                  ++ " are not supported, please send text/audio. Full payload: "
                  ++ payloadDump payload) st1 with
            | (.error e, st2) => (.error e, st2)
            | (.ok _, st2) =>
              (.ok (.ignored ("incorrect message type: " ++ messageType)), st2)

/-- The keys of the `upload` effects of a trace, in order. -/
def uploadKeys (trace : List Effect) : List String :=
  trace.filterMap (fun e => match e with | .upload k => some k | _ => none)

/-- The bodies of the `send` effects of a trace, in order. -/
def sentBodies (trace : List Effect) : List String :=
  trace.filterMap (fun e => match e with | .send _ b => some b | _ => none)

/-- The body of the last message sent in a trace (the final reply). -/
def lastSentBody (trace : List Effect) : Option String :=
  (sentBodies trace).getLast?

/-- Whether a trace contains any LLM call (classification or extraction). -/
def hasLlmCall (trace : List Effect) : Bool :=
  trace.any (fun e => match e with
    | .classify _ => true
    | .extract _ _ => true
    | _ => false)

/-- Whether a trace contains any `send` effect. -/
def hasSend (trace : List Effect) : Bool :=
  trace.any (fun e => match e with | .send _ _ => true | _ => false)

/-! ## Concrete fixtures used by the witness and counterexample theorems -/

/-- A resolved tenant. -/
def acmeMetadata : CustomerMetadata :=
  ⟨"cust-1", "c1", "Acme Plumbing"⟩

/-- Empty bucket, empty trace. -/
def pstate0 : PState := ⟨[], []⟩

/-- A small structured job document. -/
def johnsonDoc : StructuredDoc :=
  .jobsToBeDone "Order fittings" "Johnson bathroom" "Site visit notes"
    ["Buy 3 copper fittings"]

/-- A healthy environment: lookup resolves to `acmeMetadata`, sends and
downloads succeed, transcription returns a fixed text, classification
returns `JOB_TO_BE_DONE` with raw tag `"Johnson Job!!"`, extraction returns
`johnsonDoc`. -/
def happyEnv : Env where
  lookup := fun _ => .ok acmeMetadata
  sendMessageApi := fun _ _ => .ok ()
  downloadMediaApi := fun _ => .ok "OGG-BYTES"
  transcribeApi := fun _ _ => .ok "Fix the sink at the Johnson job"
  extractMetadataApi := fun _ => .ok (.jobToBeDone, "Johnson Job!!")
  structureTextApi := fun _ _ => .ok johnsonDoc

/-- An incoming audio message. -/
def audioPayload : TwilioWebhookPayload where
  MessageSid := "SM0123456789abcdef"
  AccountSid := "AC1"
  From := "whatsapp:+4512345678"
  To := "whatsapp:+4587654321"
  MessageType := some "audio"
  NumMedia := "1"
  MediaContentType0 := some "audio/ogg"
  MediaUrl0 := some "https://api.twilio.com/media/ME1"

/-! ## Claims -/

/-- C1: round-trip of the storage key scheme fails on the code.  For the
artifact keys the processor writes for one audio message (company `"c1"`,
sanitized tag `"johnson-job"`, Twilio SID `"SM0123456789abcdef"`), the
read-side grouping `list_objects_ids_only` does NOT put all three artifacts
under one message id: the `text_summary` artifact key joins the SID to its
suffix with a dot, so the SID scan recovers `"SM0123456789abcdef.text"` for
it, and the message is split into two groups (file counts 2 and 1) instead
of one group with file count 3. -/
theorem c1_grouping_splits_artifacts :
    listObjectsIdsOnly (processMessage happyEnv audioPayload pstate0).2.store
        "c1" "job-to-be-done" =
      [⟨"SM0123456789abcdef.text", "johnson-job", 1⟩,
       ⟨"SM0123456789abcdef", "johnson-job", 2⟩] ∧
    listObjectsIdsOnly (processMessage happyEnv audioPayload pstate0).2.store
        "c1" "job-to-be-done" ≠
      [⟨"SM0123456789abcdef", "johnson-job", 3⟩] := by
  decide

/-- C6: the rendered structured document is NOT stored under
`{company_id}/{intent}/{tag}_{message_id}_text_summary.txt`: the processor
writes `{tag}_{message_id}.text_summary.txt` (a dot before `text_summary`,
`processor.py` line 140), diverging from the published underscore layout
that the claim states. -/
theorem c6_summary_key_uses_dot :
    uploadKeys (processMessage happyEnv audioPayload pstate0).2.trace =
      ["c1/job-to-be-done/johnson-job_SM0123456789abcdef_audio.ogg",
       "c1/job-to-be-done/johnson-job_SM0123456789abcdef_full_text.txt",
       "c1/job-to-be-done/johnson-job_SM0123456789abcdef.text_summary.txt"] ∧
    ("c1/job-to-be-done/johnson-job_SM0123456789abcdef.text_summary.txt" : String) ≠
      "c1/job-to-be-done/johnson-job_SM0123456789abcdef_text_summary.txt" := by
  decide

/-- C2: storage overwrite protection.  With `overwrite=False`, `upload` on a
present key raises the "already exists" `FileExistsError` and performs no
write (the store is returned unchanged); on an absent key it performs the
write and returns the key it was given. -/
theorem c2_upload_overwrite_guard (store : Store) (data key contentType : String) :
    (storeContains store key = true →
      s3upload store data key contentType false =
        (.error ("File already exists at " ++ key
          ++ ". Set overwrite=True to replace it."), store)) ∧
    (storeContains store key = false → ∀ overwrite : Bool,
      s3upload store data key contentType overwrite =
        (.ok key, storePut store key data contentType)) := by
  constructor
  · intro h
    simp [s3upload, h]
  · intro h overwrite
    simp [s3upload, h]

/-- C2 witness: concrete store `[("k", "old", "text/plain")]` with present
key `"k"` and absent key `"j"`. -/
theorem c2_upload_overwrite_guard_witness :
    (storeContains [("k", "old", "text/plain")] "k" = true ∧
      s3upload [("k", "old", "text/plain")] "new" "k" "text/plain" false =
        (.error "File already exists at k. Set overwrite=True to replace it.",
          [("k", "old", "text/plain")])) ∧
    (storeContains [("k", "old", "text/plain")] "j" = false ∧
      s3upload [("k", "old", "text/plain")] "new" "j" "text/plain" false =
        (.ok "j", storePut [("k", "old", "text/plain")] "j" "new" "text/plain")) := by
  refine ⟨⟨by decide, ?_⟩, ⟨by decide, ?_⟩⟩
  · exact (c2_upload_overwrite_guard [("k", "old", "text/plain")] "new" "k"
      "text/plain").1 (by decide)
  · exact (c2_upload_overwrite_guard [("k", "old", "text/plain")] "new" "j"
      "text/plain").2 (by decide) false

/-- A 1601-character summary (longer than the 1600-character budget). -/
def bigA : String := String.mk (List.replicate 1601 'a')

/-- A structured job document whose rendering exceeds the budget. -/
def longDoc : StructuredDoc :=
  .jobsToBeDone bigA "Johnson bathroom" "Site visit notes" ["Buy 3 copper fittings"]

/-- `happyEnv` but extraction returns the over-budget document. -/
def longDocEnv : Env :=
  { happyEnv with structureTextApi := fun _ _ => .ok longDoc }

/-- An incoming text message. -/
def textPayload : TwilioWebhookPayload where
  MessageSid := "SM0123456789abcdef"
  AccountSid := "AC1"
  From := "whatsapp:+4512345678"
  To := "whatsapp:+4587654321"
  MessageType := some "text"
  Body := some "Order 3 copper fittings for the Johnson job"

set_option maxRecDepth 40000 in
/-- C3: the final reply is NOT produced by the three-tier fallback and is
not bounded by 1600 characters.  `process_message` builds the reply from
`structured_analysis.format()` directly (never calling
`format_for_whatsapp`), so for a message whose structured document renders
to more than 1600 characters the final reply sent to the sender exceeds the
hard budget — while the three-tier fallback on the same document and tag
stays within it. -/
theorem c3_final_reply_exceeds_budget :
    1600 <
      ((lastSentBody (processMessage longDocEnv textPayload pstate0).2.trace).getD
        "").length ∧
    (formatForWhatsapp longDoc "johnson-job" "" "").length ≤ 1600 := by
  decide

/-- A 1601-character tag. -/
def bigTag : String := String.mk (List.replicate 1601 'b')

/-- A knowledge document whose full and truncated renderings both exceed the
budget (its title alone is 1601 characters). -/
def bigKnowledgeDoc : StructuredDoc :=
  .knowledge bigA "short summary" "short context"

set_option maxRecDepth 40000 in
/-- C4 counterexample: `format_for_whatsapp` does not return a string of at
most 1600 characters for every tag.  With a 1601-character tag and a
document whose full and truncated renderings both exceed the budget, the
minimal tier `"Successfully uploaded: " + tag` (1624 characters) is
returned. -/
theorem c4_counterexample :
    1600 < (formatForWhatsapp bigKnowledgeDoc bigTag "" "").length := by
  decide

/-- C4 amended: `format_for_whatsapp` never raises (it is a total function),
and for every structured document and every tag of at most 1577 characters
(so that the minimal tier `"Successfully uploaded: " + tag` itself fits the
budget) the returned string has at most 1600 characters. -/
theorem c4_amended_reply_budget (d : StructuredDoc) (tag : String)
    (h : tag.length ≤ 1577) :
    (formatForWhatsapp d tag "" "").length ≤ 1600 := by
  have h23 : ("Successfully uploaded: " : String).length = 23 := by decide
  have hmin : (("Successfully uploaded: " ++ tag : String)).length = 23 + tag.length := by
    rw [String.length_append, h23]
  unfold formatForWhatsapp whatsappCharLimit
  dsimp only
  split
  · assumption
  · split
    · assumption
    · split
      · assumption
      · omega

/-- C4 amended witness: a small document and tag. -/
theorem c4_amended_reply_budget_witness :
    ("fittings" : String).length ≤ 1577 ∧
    (formatForWhatsapp johnsonDoc "fittings" "" "").length ≤ 1600 :=
  ⟨by decide, c4_amended_reply_budget johnsonDoc "fittings" (by decide)⟩

/-! ## Lemmas about the sanitizing pipeline -/

/-- Membership in `dropTrailing` output implies membership in the input. -/
theorem mem_dropTrailing {q : Char → Bool} {l : List Char} {a : Char}
    (h : a ∈ dropTrailing q l) : a ∈ l := by
  induction l with
  | nil => simp [dropTrailing] at h
  | cons c cs ih =>
    rw [dropTrailing] at h
    cases hdt : dropTrailing q cs with
    | nil =>
      rw [hdt] at h
      by_cases hq : q c
      · simp [hq] at h
      · simp [hq] at h
        simp [h]
    | cons d ds =>
      rw [hdt] at h
      rcases List.mem_cons.mp h with rfl | h2
      · exact List.mem_cons_self _ _
      · exact List.mem_cons_of_mem _ (ih (hdt ▸ h2))

/-- The last character surviving `dropTrailing q` does not satisfy `q`. -/
theorem getLast_dropTrailing {q : Char → Bool} {l : List Char} {c : Char}
    (h : (dropTrailing q l).getLast? = some c) : q c = false := by
  induction l with
  | nil => simp [dropTrailing] at h
  | cons x xs ih =>
    rw [dropTrailing] at h
    cases hdt : dropTrailing q xs with
    | nil =>
      rw [hdt] at h
      by_cases hq : q x
      · simp [hq] at h
      · simp [hq] at h
        rw [← h]
        simpa using hq
    | cons d ds =>
      rw [hdt] at h
      rw [List.getLast?_cons_cons] at h
      exact ih (hdt ▸ h)

/-- When `dropTrailing q` keeps anything, it keeps the head. -/
theorem head_dropTrailing {q : Char → Bool} {l : List Char}
    (h : dropTrailing q l ≠ []) : (dropTrailing q l).head? = l.head? := by
  induction l with
  | nil => simp [dropTrailing]
  | cons x xs ih =>
    rw [dropTrailing] at h ⊢
    cases hdt : dropTrailing q xs with
    | nil =>
      by_cases hq : q x
      · simp [hdt, hq] at h
      · simp [hdt, hq]
    | cons d ds => simp [hdt]

/-- The head surviving `dropWhile q` does not satisfy `q`. -/
theorem head_dropWhile {q : Char → Bool} {l : List Char} {c : Char}
    (h : (l.dropWhile q).head? = some c) : q c = false := by
  induction l with
  | nil => simp [List.dropWhile] at h
  | cons x xs ih =>
    rw [List.dropWhile_cons] at h
    by_cases hq : q x
    · rw [if_pos (by simpa using hq)] at h
      exact ih h
    · simp [hq] at h
      rw [← h]
      simpa using hq

/-- Membership in `stripEdges` output implies membership in the input. -/
theorem mem_stripEdges {q : Char → Bool} {l : List Char} {a : Char}
    (h : a ∈ stripEdges q l) : a ∈ l :=
  (List.dropWhile_sublist q).mem (mem_dropTrailing h)

/-- The head surviving `stripEdges q` does not satisfy `q`. -/
theorem head_stripEdges {q : Char → Bool} {l : List Char} {c : Char}
    (h : (stripEdges q l).head? = some c) : q c = false := by
  unfold stripEdges at h
  have hne : dropTrailing q (l.dropWhile q) ≠ [] := by
    intro hnil
    rw [hnil] at h
    simp at h
  rw [head_dropTrailing hne] at h
  exact head_dropWhile h

/-- The last character surviving `stripEdges q` does not satisfy `q`. -/
theorem getLast_stripEdges {q : Char → Bool} {l : List Char} {c : Char}
    (h : (stripEdges q l).getLast? = some c) : q c = false :=
  getLast_dropTrailing h

/-- C5 counterexample: the raw tag `"."` passes validation (its sanitized
form is the nonempty string `"."`), yet the result does not match
`^[a-z0-9]([a-z0-9.-]*[a-z0-9])?$` — `strip('-')` removes only hyphens, so
a leading or trailing dot survives. -/
theorem c5_counterexample :
    validateS3Key "." = some "." ∧ specTagPattern "." = false := by
  decide

/-- C5 amended: tag validation fails exactly when the sanitized result is
empty; otherwise it returns the sanitized tag, which is nonempty, contains
only characters in `[a-z0-9.-]` (hence is lowercase, with all
whitespace/underscores collapsed away), and has no leading or trailing
HYPHEN (a leading or trailing dot is allowed, unlike the pattern
`^[a-z0-9]([a-z0-9.-]*[a-z0-9])?$` stated in the claim). -/
theorem c5_amended_tag_sanitization (v : String) :
    (validateS3Key v = none ↔ sanitizedCore v = []) ∧
    (∀ s, validateS3Key v = some s →
      s.data = sanitizedCore v ∧
      s.data ≠ [] ∧
      (∀ c ∈ s.data, allowedTagChar c = true) ∧
      s.data.head? ≠ some '-' ∧
      s.data.getLast? ≠ some '-') := by
  constructor
  · unfold validateS3Key
    by_cases h : (sanitizedCore v).isEmpty
    · simp [h, List.isEmpty_iff.mp h]
    · simp [h]
      exact List.isEmpty_eq_false.mp (by simpa using h)
  · intro s hs
    unfold validateS3Key at hs
    by_cases h : (sanitizedCore v).isEmpty
    · simp [h] at hs
    · simp [h] at hs
      have hdata : s.data = sanitizedCore v := by rw [← hs]
      refine ⟨hdata, ?_, ?_, ?_, ?_⟩
      · rw [hdata]
        exact List.isEmpty_eq_false.mp (by simpa using h)
      · intro c hc
        rw [hdata] at hc
        unfold sanitizedCore at hc
        exact List.of_mem_filter (mem_stripEdges hc)
      · rw [hdata]
        intro hhd
        have := head_stripEdges (q := fun c => c = '-') hhd
        simp at this
      · rw [hdata]
        intro hlast
        have := getLast_stripEdges (q := fun c => c = '-') hlast
        simp at this

/-- C5 amended witness: the raw tag `" Hello_World! "` sanitizes to
`"hello-world"`. -/
theorem c5_amended_tag_sanitization_witness :
    validateS3Key " Hello_World! " = some "hello-world" ∧
    ("hello-world" : String).data ≠ [] ∧
    (∀ c ∈ ("hello-world" : String).data, allowedTagChar c = true) ∧
    ("hello-world" : String).data.head? ≠ some '-' ∧
    ("hello-world" : String).data.getLast? ≠ some '-' := by
  have h := (c5_amended_tag_sanitization " Hello_World! ").2 "hello-world" (by decide)
  exact ⟨by decide, h.2.1, h.2.2.1, h.2.2.2.1, h.2.2.2.2⟩

/-- An unsupported (image) message. -/
def imagePayloadA : TwilioWebhookPayload where
  MessageSid := "SM0123456789abcdef"
  AccountSid := "AC1"
  From := "whatsapp:+4512345678"
  To := "whatsapp:+4587654321"
  Body := some "one"
  MessageType := some "image"
  NumMedia := "1"
  MediaContentType0 := some "image/jpeg"
  MediaUrl0 := some "https://api.twilio.com/media/ME1"

/-- The same unsupported message with a different `Body`. -/
def imagePayloadB : TwilioWebhookPayload :=
  { imagePayloadA with Body := some "two" }

set_option maxRecDepth 20000 in
/-- C7 counterexample: the unsupported-content reply is NOT a fixed notice —
its text varies with payload fields other than the content kind, because the
f-string interpolates `payload.model_dump()`.  Two image messages that
differ only in `Body` receive different reply texts. -/
theorem c7_counterexample :
    imagePayloadB = { imagePayloadA with Body := some "two" } ∧
    lastSentBody (processMessage happyEnv imagePayloadA pstate0).2.trace ≠
      lastSentBody (processMessage happyEnv imagePayloadB pstate0).2.trace := by
  decide

/-- C7 amended: for every message whose content kind is neither text nor
audio (with tenant resolution and sends succeeding), `process_message`
returns status `ignored`, performs no storage write and no classification
or extraction call (the only effects are the confirmation send and the
notice send, and the store is unchanged), and the reply sent is the
unsupported-content notice that names the message type and interpolates the
full payload dump — so its text varies with the payload's other fields
rather than being fixed. -/
theorem c7_amended_ignored_path (env : Env) (p : TwilioWebhookPayload)
    (st : PState) (md : CustomerMetadata) (mt : String)
    (hFrom : p.From ≠ "")
    (hlookup : env.lookup p.From = .ok md)
    (hmt : getMessageType p = .ok mt)
    (hmtText : mt ≠ "text") (hmtAudio : mt ≠ "audio")
    (hsend : ∀ r b, env.sendMessageApi r b = .ok ()) :
    processMessage env p st =
      (.ok (.ignored ("incorrect message type: " ++ mt)),
        { store := st.store,
          trace := st.trace
            ++ [.send (sentRecipient p.From) "Message received, processing..."]
            ++ [.send (sentRecipient p.From)
                ("Messages of type " ++ mt
                  ++ " are not supported, please send text/audio. Full payload: "
                  ++ payloadDump p)] }) := by
  simp [processMessage, sendMessage, addEffect, hFrom, hlookup, hmt, hmtText,
    hmtAudio, hsend]

/-- C7 amended witness: the concrete image message `imagePayloadA` in
`happyEnv`. -/
theorem c7_amended_ignored_path_witness :
    processMessage happyEnv imagePayloadA pstate0 =
      (.ok (.ignored ("incorrect message type: " ++ "image")),
        { store := pstate0.store,
          trace := pstate0.trace
            ++ [.send (sentRecipient imagePayloadA.From) "Message received, processing..."]
            ++ [.send (sentRecipient imagePayloadA.From)
                ("Messages of type " ++ "image"
                  ++ " are not supported, please send text/audio. Full payload: "
                  ++ payloadDump imagePayloadA)] }) :=
  c7_amended_ignored_path happyEnv imagePayloadA pstate0 acmeMetadata "image"
    (by decide) rfl rfl (by decide) (by decide) (fun r b => rfl)

/-- C8: the OTHER-intent path.  For every text message classified with
intent `OTHER` (tenant resolution, sends, classification and the single
upload succeeding), the extractor `structure_full_text` is never invoked,
the structured document is `None`, exactly one storage write occurs — the
`full_text` artifact — and the final reply is the fixed informational
template rather than the three-tier rendering: the full result state is the
initial one extended by exactly the confirmation send, the classification
call, the one `full_text` upload, and the fixed-template send. -/
theorem c8_other_intent_path (env : Env) (p : TwilioWebhookPayload)
    (st : PState) (md : CustomerMetadata) (fullText rawTag tag : String)
    (hFrom : p.From ≠ "")
    (hlookup : env.lookup p.From = .ok md)
    (hmt : getMessageType p = .ok "text")
    (hBody : p.Body = some fullText)
    (hsend : ∀ r b, env.sendMessageApi r b = .ok ())
    (hclassify : env.extractMetadataApi fullText = .ok (.other, rawTag))
    (htag : validateS3Key rawTag = some tag)
    (hfresh : storeContains st.store
      (artifactKeyStem md.company_id "other" tag p.MessageSid
        ++ "_full_text.txt") = false) :
    processMessage env p st =
      (.ok (.success p.MessageSid
          [("full_text",
            artifactKeyStem md.company_id "other" tag p.MessageSid
              ++ "_full_text.txt")]
          fullText.length ⟨.other, tag⟩ none),
        { store := storePut st.store
            (artifactKeyStem md.company_id "other" tag p.MessageSid
              ++ "_full_text.txt") fullText "text/plain",
          trace := st.trace
            ++ [.send (sentRecipient p.From) "Message received, processing..."]
            ++ [.classify fullText]
            ++ [.upload (artifactKeyStem md.company_id "other" tag p.MessageSid
                  ++ "_full_text.txt")]
            ++ [.send (sentRecipient p.From)
                "Message received and processed. Note: This message was classified as informational only."] }) := by
  simp [processMessage, finishProcessing, sendMessage, addEffect,
    extractMessageMetadata, s3UploadStep, s3upload, MessageIntent.value,
    hFrom, hlookup, hmt, hBody, hsend, hclassify, htag, hfresh]

/-- A classification oracle returning intent `OTHER`. -/
def otherIntentEnv : Env :=
  { happyEnv with extractMetadataApi := fun _ => .ok (.other, "Casual Chat") }

/-- C8 witness: the concrete text message `textPayload` in
`otherIntentEnv`. -/
theorem c8_other_intent_path_witness :
    processMessage otherIntentEnv textPayload pstate0 =
      (.ok (.success textPayload.MessageSid
          [("full_text",
            artifactKeyStem acmeMetadata.company_id "other" "casual-chat"
              textPayload.MessageSid ++ "_full_text.txt")]
          ("Order 3 copper fittings for the Johnson job" : String).length
          ⟨.other, "casual-chat"⟩ none),
        { store := storePut pstate0.store
            (artifactKeyStem acmeMetadata.company_id "other" "casual-chat"
              textPayload.MessageSid ++ "_full_text.txt")
            "Order 3 copper fittings for the Johnson job" "text/plain",
          trace := pstate0.trace
            ++ [.send (sentRecipient textPayload.From) "Message received, processing..."]
            ++ [.classify "Order 3 copper fittings for the Johnson job"]
            ++ [.upload (artifactKeyStem acmeMetadata.company_id "other" "casual-chat"
                  textPayload.MessageSid ++ "_full_text.txt")]
            ++ [.send (sentRecipient textPayload.From)
                "Message received and processed. Note: This message was classified as informational only."] }) :=
  c8_other_intent_path otherIntentEnv textPayload pstate0 acmeMetadata
    "Order 3 copper fittings for the Johnson job" "Casual Chat" "casual-chat"
    (by decide) rfl rfl rfl (fun r b => rfl) rfl (by decide) (by decide)

/-- C9: no reply before tenant resolution.  Part one: every lookup failure
mode — transport error, any non-200 status (404 not-found, 401, 400,
others), or a 200 response whose body fails `CustomerMetadata` validation —
is surfaced by `fetch_customer_metadata` as a raised condition.  Part two:
when the lookup raises, `process_message` propagates exactly that error and
leaves the state untouched — in particular the trace gains no `send`
effect, so no acknowledgement or other reply is ever sent to the sender. -/
theorem c9_no_reply_before_tenant_resolution :
    (∀ (resp : LookupResponse) (ph : String), lookupFails resp = true →
      ∃ e, fetchCustomerMetadata resp ph = .error e) ∧
    (∀ (env : Env) (p : TwilioWebhookPayload) (st : PState) (e : String),
      p.From ≠ "" → env.lookup p.From = .error e →
      processMessage env p st = (.error e, st)) := by
  constructor
  · intro resp ph h
    cases resp with
    | transportError m => exact ⟨_, rfl⟩
    | http status errorField parsed =>
      unfold fetchCustomerMetadata
      dsimp only
      split_ifs with h1 h2 h3 h4
      · exact ⟨_, rfl⟩
      · exact ⟨_, rfl⟩
      · exact ⟨_, rfl⟩
      · exact ⟨_, rfl⟩
      · cases parsed with
        | none => exact ⟨_, rfl⟩
        | some md =>
          exfalso
          rw [not_not] at h4
          simp [lookupFails, h4] at h
  · intro env p st e hFrom hlookup
    simp [processMessage, hFrom, hlookup]

/-- C9 witness: a transport-error lookup (part one), and a concrete run in
which the lookup raises (part two): `process_message` returns the error and
the state — with its empty trace, hence no sent message — unchanged. -/
theorem c9_no_reply_before_tenant_resolution_witness :
    (lookupFails (.transportError "timeout") = true ∧
      ∃ e, fetchCustomerMetadata (.transportError "timeout") "whatsapp:+4512345678" =
        .error e) ∧
    (("whatsapp:+4512345678" : String) ≠ "" ∧
      processMessage
        { happyEnv with lookup := fun _ => .error "Customer lookup failed: Unauthorized" }
        textPayload pstate0 =
        (.error "Customer lookup failed: Unauthorized", pstate0)) := by
  constructor
  · exact ⟨by decide,
      c9_no_reply_before_tenant_resolution.1 (.transportError "timeout")
        "whatsapp:+4512345678" (by decide)⟩
  · exact ⟨by decide,
      c9_no_reply_before_tenant_resolution.2
        { happyEnv with lookup := fun _ => .error "Customer lookup failed: Unauthorized" }
        textPayload pstate0 "Customer lookup failed: Unauthorized" (by decide) rfl⟩

/-- C10: the content-kind accessors are not total over validated payloads.
`NumMedia` is an arbitrary string (default `"0"`), so for every payload
whose declared `MessageType` yields no early return and whose `NumMedia`
does not parse as a Python integer, both `get_message_type` and
`get_media_url` raise `ValueError` from the unguarded `int()` conversion
instead of returning a content kind or a URL. -/
theorem c10_accessors_raise_on_bad_nummedia (p : TwilioWebhookPayload)
    (hdecl : declaredMessageType p = none)
    (hnum : pythonInt p.NumMedia = none) :
    getMessageType p =
      .error ("ValueError: invalid literal for int() with base 10: '"
        ++ p.NumMedia ++ "'") ∧
    getMediaUrl p =
      .error ("ValueError: invalid literal for int() with base 10: '"
        ++ p.NumMedia ++ "'") := by
  unfold getMessageType getMediaUrl
  rw [hdecl, hnum]
  exact ⟨rfl, rfl⟩

/-- A payload that passes model validation (all declared fields typed) with
no declared `MessageType` and a non-numeric `NumMedia`. -/
def badNumMediaPayload : TwilioWebhookPayload where
  MessageSid := "SM0123456789abcdef"
  AccountSid := "AC1"
  From := "whatsapp:+4512345678"
  To := "whatsapp:+4587654321"
  Body := some "hello"
  NumMedia := "abc"

/-- C10 witness: the concrete payload with `NumMedia = "abc"`. -/
theorem c10_accessors_raise_on_bad_nummedia_witness :
    getMessageType badNumMediaPayload =
      .error ("ValueError: invalid literal for int() with base 10: '"
        ++ badNumMediaPayload.NumMedia ++ "'") ∧
    getMediaUrl badNumMediaPayload =
      .error ("ValueError: invalid literal for int() with base 10: '"
        ++ badNumMediaPayload.NumMedia ++ "'") :=
  c10_accessors_raise_on_bad_nummedia badNumMediaPayload rfl (by decide)
